import Mathlib

/-!
Verification of the HotMeals (BiteBot) booking coordination core.

Shallow embedding of:
* the session context store (`_tool_contexts` / `set_tool_context` /
  `get_tool_context` / `clear_tool_context` in `src/tools.py`),
* the hours evaluator (`is_open_now` in `src/database.py` and the inline
  hours check of `check_availability_tool` in `src/tools.py`),
* the availability checker (`check_availability_tool`),
* the reservation committer (`make_reservation_tool`),
* the request router (`route_request` in `src/supervisor_agent.py`),
* the reservation plumbing of `run_agent`
  (`src/discovery_and_reservation_agent.py`) and the `/chat` handler
  (`app.py`).

External collaborators (database lookups, `dateparser`, `datetime.now`,
`uuid`) are passed in as an explicit environment record; machine-level
concerns (threads, the language model) are outside the embedding.
The only value the repository ever stores in the tool context is the
availability dict written by `check_availability_tool`, so the store is
modelled with that value type; the `reservation` key that `run_agent`
reads lives in the same store and is never written by any tool.
-/

/-- A calendar date as produced by `dateparser` / `datetime`:
`absDay` models the total order on `datetime.date` (used by the
past-date check, where `strptime` recovers the date that `strftime`
printed), `ymd` models `strftime("%Y-%m-%d")` and `weekday` models
`strftime("%A")`. -/
structure CalDate where
  absDay : Nat
  ymd : String
  weekday : String
  deriving DecidableEq, Repr

/-- The availability dict stored by `check_availability_tool`
(`src/tools.py` lines 331-336). -/
structure AvailabilityToken where
  date : CalDate
  time : String
  party_size : Nat
  restaurant : String
  deriving DecidableEq, Repr

/-- The reservation record assembled by `make_reservation_tool`
(`src/tools.py` lines 445-458). -/
structure Reservation where
  reservation_id : String
  restaurant_name : String
  restaurant_id : String
  address : String
  date : String
  time : String
  party_size : Nat
  customer_name : String
  customer_phone : String
  special_requests : String
  status : String
  created_at : String
  deriving DecidableEq, Repr

/-- One per-session key/value bag (an inner dict of `_tool_contexts`). -/
abbrev CtxBag : Type := String → Option AvailabilityToken

/-- Model of `_tool_contexts : dict` in `src/tools.py`: session id (the value of
the `_active_session` context variable, possibly unset = `none`) to the
session's bag.  `none` in the range means the outer dict has no entry
for that session id. -/
abbrev ToolContexts : Type := Option String → Option CtxBag

def emptyBag : CtxBag := fun _ => none

def emptyContexts : ToolContexts := fun _ => none

def bagSet (b : CtxBag) (key : String) (v : AvailabilityToken) : CtxBag :=
  fun k => if k = key then some v else b k

/-- Model of `dict.pop(key, None)` on an inner bag. -/
def bagPop (b : CtxBag) (key : String) : CtxBag :=
  fun k => if k = key then none else b k

/-- Model of `set_tool_context` (`src/tools.py` lines 44-50).  Note: the source
performs no `sid is None` check — with no session bound it creates and
writes the bucket keyed by the unset marker. -/
def set_tool_context (sid : Option String) (key : String)
    (v : AvailabilityToken) (ctx : ToolContexts) : ToolContexts :=
  fun s => if s = sid then some (bagSet ((ctx sid).getD emptyBag) key v) else ctx s

/-- Model of `get_tool_context` (`src/tools.py` lines 53-59): returns `none` when
no session is bound, else `_tool_contexts.get(sid, {}).get(key)`. -/
def get_tool_context (sid : Option String) (key : String)
    (ctx : ToolContexts) : Option AvailabilityToken :=
  match sid with
  | none => none
  | some _ => ((ctx sid).getD emptyBag) key

/-- Model of `clear_tool_context` (`src/tools.py` lines 62-69): no-op when no
session is bound or the session has no bucket, else pops the key. -/
def clear_tool_context (sid : Option String) (key : String)
    (ctx : ToolContexts) : ToolContexts :=
  match sid with
  | none => ctx
  | some _ =>
    match ctx sid with
    | none => ctx
    | some b => fun s => if s = sid then some (bagPop b key) else ctx s

/-- A single store mutation, for reasoning about sequences of tool-side
effects (claim about cross-session isolation). -/
inductive CtxOp where
  | setOp (key : String) (v : AvailabilityToken)
  | clearOp (key : String)
  deriving DecidableEq

def applyOp (sid : Option String) (op : CtxOp) (ctx : ToolContexts) : ToolContexts :=
  match op with
  | .setOp k v => set_tool_context sid k v ctx
  | .clearOp k => clear_tool_context sid k ctx

/-- Apply a sequence of store operations, each tagged with the session
that was bound while it ran. -/
def applyOps (ops : List (Option String × CtxOp)) (ctx : ToolContexts) : ToolContexts :=
  ops.foldl (fun c p => applyOp p.1 p.2 c) ctx

/-- Model of the zero-padded two-digit rendering used by the source
(and the `%H`/`%M` fields of its time formatting). -/
def pad2 (n : Nat) : String :=
  if n < 10 then "0" ++ toString n else toString n

/-- Model of `is_open_now` (`src/database.py` lines 190-247).  The weekly hours
map carries parsed `"H:MM-H:MM"` entries as `(open_hour, open_min,
close_hour, close_min)`; `none` for the whole map models a falsy
`hours` argument and `none` for a day models a missing/falsy entry. -/
def is_open_now (hours : Option (String → Option (Nat × Nat × Nat × Nat)))
    (day_name : String) (nowHour nowMin : Nat) : Bool × String :=
  match hours with
  | none => (false, "Hours not available")
  | some h =>
    match h day_name with
    | none => (false, "No hours listed for " ++ day_name)
    | some (oh, om, ch, cm) =>
      let current_time := nowHour * 60 + nowMin
      let open_minutes := oh * 60 + om
      let close_minutes := ch * 60 + cm
      if open_minutes = 0 ∧ close_minutes = 0 then
        (false, "Closed today")
      else
        let open_str := toString oh ++ ":" ++ pad2 om
        let close_str := toString ch ++ ":" ++ pad2 cm
        let is_open :=
          if close_minutes < open_minutes then
            decide (current_time ≥ open_minutes) || decide (current_time < close_minutes)
          else
            decide (open_minutes ≤ current_time) && decide (current_time < close_minutes)
        if is_open then (true, "Open now (closes at " ++ close_str ++ ")")
        else (false, "Closed (opens at " ++ open_str ++ ")")

/-- A restaurant record as used by the tools: `accepts_reservations`
models `attributes.get("RestaurantsReservations") == "True"` and
`hours` is the weekly map with pre-parsed `(oh, om, ch, cm)` entries. -/
structure Restaurant where
  name : String
  business_id : String
  address : String
  city : String
  state : String
  accepts_reservations : Bool
  hours : Option (String → Option (Nat × Nat × Nat × Nat))

/-- The external collaborators of one tool invocation: database lookups
(`get_restaurant_by_id` / `get_restaurant_by_name`), `dateparser` for
the date argument, the combined `dateparser` + regex fallback for the
time argument (yielding a 24-hour `(hour, minute)` pair), `datetime.now`
(as a date, an `(hour, minute)` pair, and an ISO string), and
`str(uuid.uuid4())[:8]`. -/
structure Env where
  getById : String → Option Restaurant
  getByName : String → Option String → Option Restaurant
  parseDate : String → Option CalDate
  parseTime : CalDate → String → Option (Nat × Nat)
  now : CalDate
  nowTime : Nat × Nat
  fresh_id : String
  created_at : String

/-- The shared restaurant-resolution preamble of the tools
(`src/tools.py` lines 234-242 and 409-417): outer `none` models the
"provide a name or business_id" error, inner `none` a failed lookup. -/
def resolveRestaurant (getById : String → Option Restaurant)
    (getByName : String → Option String → Option Restaurant)
    (name city business_id : Option String) : Option (Option Restaurant) :=
  match business_id with
  | some bid => some (getById bid)
  | none =>
    match name with
    | some n => some (getByName n city)
    | none => none

/-- Structured outcomes of `check_availability_tool`, one constructor
per distinct return of the source. -/
inductive CheckResult where
  | errNoIdentity
  | errNotFound
  | errNotAccepted (rname : String)
  | errUnparseableDate (d : String)
  | errUnparseableTime (t : String)
  | errClosedOnDay (rname day : String)
  | errNotOpenAt (rname time day : String)
  | errNoHoursForDay (day rname : String)
  | okAvailable (tok : AvailabilityToken)
  | openNowInfo (is_open : Bool) (msg : String)
  deriving DecidableEq, Repr

def isAvailable : CheckResult → Bool
  | .okAvailable _ => true
  | _ => false

/-- The reservation-path branch of `check_availability_tool`
(`src/tools.py` lines 252-346), entered when a date or time was
supplied. -/
def reservationCheck (env : Env) (sid : Option String) (restaurant : Restaurant)
    (date time : Option String) (party_size : Nat) (ctx : ToolContexts) :
    CheckResult × ToolContexts :=
  if restaurant.accepts_reservations = false then
    (.errNotAccepted restaurant.name, ctx)
  else
    let parsedDate : Except String CalDate :=
      match date with
      | some d =>
        match env.parseDate d with
        | some pd => .ok pd
        | none => .error d
      | none => .ok env.now
    match parsedDate with
    | .error d => (.errUnparseableDate d, ctx)
    | .ok reservation_date =>
      let parsedTime : Except String (Nat × Nat) :=
        match time with
        | some t =>
          match env.parseTime reservation_date t with
          | some hm => .ok hm
          | none => .error t
        | none => .ok env.nowTime
      match parsedTime with
      | .error t => (.errUnparseableTime t, ctx)
      | .ok rt =>
        let reservation_time := pad2 rt.1 ++ ":" ++ pad2 rt.2
        let day_name := reservation_date.weekday
        match restaurant.hours with
        | none => (.errNoHoursForDay day_name restaurant.name, ctx)
        | some h =>
          match h day_name with
          | none => (.errNoHoursForDay day_name restaurant.name, ctx)
          | some (oh, om, ch, cm) =>
            let req_minutes := rt.1 * 60 + rt.2
            let open_minutes := oh * 60 + om
            let close_minutes := ch * 60 + cm
            if open_minutes = 0 ∧ close_minutes = 0 then
              (.errClosedOnDay restaurant.name day_name, ctx)
            else
              let time_ok :=
                if close_minutes < open_minutes then
                  decide (req_minutes ≥ open_minutes) || decide (req_minutes < close_minutes)
                else
                  decide (open_minutes ≤ req_minutes) && decide (req_minutes < close_minutes)
              if time_ok = false then
                (.errNotOpenAt restaurant.name reservation_time day_name, ctx)
              else
                let tok : AvailabilityToken :=
                  { date := reservation_date
                    time := reservation_time
                    party_size := party_size
                    restaurant := restaurant.name }
                (.okAvailable tok, set_tool_context sid "availability" tok ctx)

/-- Model of `check_availability_tool` (`src/tools.py` lines 211-363). -/
def check_availability (env : Env) (sid : Option String)
    (name city business_id : Option String)
    (date time : Option String) (party_size : Nat)
    (ctx : ToolContexts) : CheckResult × ToolContexts :=
  match resolveRestaurant env.getById env.getByName name city business_id with
  | none => (.errNoIdentity, ctx)
  | some none => (.errNotFound, ctx)
  | some (some restaurant) =>
    if time.isSome || date.isSome then
      reservationCheck env sid restaurant date time party_size ctx
    else
      let r := is_open_now restaurant.hours env.now.weekday env.nowTime.1 env.nowTime.2
      (.openNowInfo r.1 r.2, ctx)

/-- The characters `str.strip()` removes (space, tab, newline, carriage
return, vertical tab, form feed). -/
def isPySpace (c : Char) : Bool :=
  c.toNat = 32 || c.toNat = 9 || c.toNat = 10 || c.toNat = 13 ||
  c.toNat = 11 || c.toNat = 12

/-- Model of `str.lower()` on one character (ASCII range, which covers every
string the placeholder check compares against). -/
def pyLowerChar (c : Char) : Char :=
  if 65 ≤ c.toNat ∧ c.toNat ≤ 90 then Char.ofNat (c.toNat + 32) else c

def stripList (l : List Char) : List Char :=
  ((l.dropWhile isPySpace).reverse.dropWhile isPySpace).reverse

/-- Model of `str.strip()`. -/
def pyStrip (s : String) : String := ⟨stripList s.data⟩

/-- Model of `str.lower()`. -/
def pyLower (s : String) : String := ⟨s.data.map pyLowerChar⟩

/-- Structured outcomes of `make_reservation_tool`, one constructor per
distinct return of the source. -/
inductive ReserveResult where
  | errEmptyName
  | errPlaceholder (n : String)
  | errTooShort (n : String)
  | errNoIdentity
  | errNotFound
  | errNotAccepted (rname : String)
  | errNoAvailability
  | errPastDate
  | okConfirmed (r : Reservation)
  deriving DecidableEq, Repr

def isConfirmed : ReserveResult → Bool
  | .okConfirmed _ => true
  | _ => false

/-- Model of `generic_names` (`src/tools.py` line 401). -/
def generic_names : List String :=
  ["guest", "user", "customer", "reservation", "table", "name", "person", "client"]

/-- The reservation record built at `src/tools.py` lines 445-458. -/
def mkReservation (env : Env) (restaurant : Restaurant) (tok : AvailabilityToken)
    (customer_name : String) (customer_phone special_requests : Option String) :
    Reservation :=
  { reservation_id := env.fresh_id
    restaurant_name := restaurant.name
    restaurant_id := restaurant.business_id
    address := restaurant.address ++ ", " ++ restaurant.city ++ ", " ++ restaurant.state
    date := tok.date.ymd
    time := tok.time
    party_size := tok.party_size
    customer_name := customer_name
    customer_phone := customer_phone.getD "Not provided"
    special_requests := special_requests.getD "None"
    status := "confirmed"
    created_at := env.created_at }

/-- Model of `make_reservation_tool` (`src/tools.py` lines 365-485).  The
`party_size` argument is accepted but overwritten by the token's value
(line 434); date and time are not parameters at all — they only come
from the token.  The past-date check compares `strptime` of the token's
date string with `datetime.now().date()` (lines 438-440). -/
def make_reservation (env : Env) (sid : Option String)
    (customer_name : String) (name city business_id : Option String)
    (party_size : Nat) (customer_phone special_requests : Option String)
    (ctx : ToolContexts) : ReserveResult × ToolContexts :=
  if (pyStrip customer_name).isEmpty then
    (.errEmptyName, ctx)
  else if generic_names.contains (pyStrip (pyLower customer_name)) then
    (.errPlaceholder customer_name, ctx)
  else if (pyStrip customer_name).length < 2 then
    (.errTooShort customer_name, ctx)
  else
    match resolveRestaurant env.getById env.getByName name city business_id with
    | none => (.errNoIdentity, ctx)
    | some none => (.errNotFound, ctx)
    | some (some restaurant) =>
      if restaurant.accepts_reservations = false then
        (.errNotAccepted restaurant.name, ctx)
      else
        match get_tool_context sid "availability" ctx with
        | none => (.errNoAvailability, ctx)
        | some availability =>
          if availability.date.absDay < env.now.absDay then
            (.errPastDate, ctx)
          else
            (.okConfirmed
              (mkReservation env restaurant availability customer_name
                customer_phone special_requests),
             clear_tool_context sid "availability" ctx)

/-- The reservation extraction of `run_agent`
(`src/discovery_and_reservation_agent.py` line 140):
`get_tool_context("reservation")` on the session's store after the
agent loop ran. -/
def run_agent_reservation_json (sid : Option String) (ctx : ToolContexts) :
    Option AvailabilityToken :=
  get_tool_context sid "reservation" ctx

/-- The reservation-persistence step of the `/chat` handler
(`app.py` lines 108-117): append the returned record unless its
`reservation_id` is already present. -/
def chat_store_reservation (reservations : List Reservation)
    (reservation_json : Option Reservation) : List Reservation :=
  match reservation_json with
  | none => reservations
  | some r =>
    if (reservations.map Reservation.reservation_id).contains r.reservation_id then
      reservations
    else
      reservations ++ [r]

/-- The `Literal["restaurant", "support"]` type of `RouteDecision.agent`
(`src/supervisor_agent.py` lines 19-25). -/
inductive AgentChoice where
  | restaurant
  | support
  deriving DecidableEq, Repr

/-- Model of `RouteDecision` (`src/supervisor_agent.py` lines 19-25): the
structured output the classifier is constrained to. -/
structure RouteDecision where
  agent : AgentChoice
  rationale : String
  deriving DecidableEq, Repr

/-- Model of `route_request` (`src/supervisor_agent.py` lines 36-83): the
classification call (`supervisor.invoke`) is external — its outcome,
success with a validated `RouteDecision` or any raised error (timeout,
malformed structured output), is the argument.  The `except` branch
returns `"restaurant"`. -/
def route_request (response : Except String RouteDecision) : AgentChoice :=
  match response with
  | .error _ => .restaurant
  | .ok r => r.agent

def vetriHours : String → Option (Nat × Nat × Nat × Nat) :=
  fun d => if d = "Friday" then some (17, 0, 22, 0) else none

/-- A reservation-accepting restaurant, open Fridays 17:00-22:00. -/
def vetri : Restaurant :=
  { name := "Vetri Cucina"
    business_id := "vetri-1"
    address := "1312 Spruce St"
    city := "Philadelphia"
    state := "PA"
    accepts_reservations := true
    hours := some vetriHours }

/-- A walk-in-only restaurant. -/
def walkInDiner : Restaurant :=
  { name := "Walk-In Diner"
    business_id := "diner-1"
    address := "10 Main St"
    city := "Tampa"
    state := "FL"
    accepts_reservations := false
    hours := some vetriHours }

def thursdayNow : CalDate := { absDay := 99, ymd := "2026-02-12", weekday := "Thursday" }

def fridayDate : CalDate := { absDay := 100, ymd := "2026-02-13", weekday := "Friday" }

def sampleEnv : Env :=
  { getById := fun bid => if bid = "vetri-1" then some vetri else none
    getByName := fun n _ =>
      if n = "Vetri Cucina" then some vetri
      else if n = "Walk-In Diner" then some walkInDiner
      else none
    parseDate := fun d => if d = "tomorrow" then some fridayDate else none
    parseTime := fun _ t => if t = "7pm" then some (19, 0) else none
    now := thursdayNow
    nowTime := (12, 30)
    fresh_id := "ab12cd34"
    created_at := "2026-02-12T12:30:00" }

def sampleTok : AvailabilityToken :=
  { date := fridayDate, time := "19:00", party_size := 4, restaurant := "Vetri Cucina" }

def ctxWithTok : ToolContexts :=
  set_tool_context (some "s1") "availability" sampleTok emptyContexts

def hrsLateNight : String → Option (Nat × Nat × Nat × Nat) :=
  fun d => if d = "Friday" then some (22, 0, 2, 0) else none

def hrsAllZero : String → Option (Nat × Nat × Nat × Nat) :=
  fun d => if d = "Saturday" then some (0, 0, 0, 0) else none

-- Theorems ------------------------------------------------------------------

theorem get_tool_context_none (key : String) (ctx : ToolContexts) :
    get_tool_context none key ctx = none := rfl

theorem clear_tool_context_none (key : String) (ctx : ToolContexts) :
    clear_tool_context none key ctx = ctx := rfl

theorem get_set_same (s : String) (key : String) (v : AvailabilityToken)
    (ctx : ToolContexts) :
    get_tool_context (some s) key (set_tool_context (some s) key v ctx) = some v := by
  simp [get_tool_context, set_tool_context, bagSet]

theorem get_clear_same (sid : Option String) (key : String) (ctx : ToolContexts) :
    get_tool_context sid key (clear_tool_context sid key ctx) = none := by
  cases sid with
  | none => rfl
  | some s =>
    unfold clear_tool_context
    cases h : ctx (some s) with
    | none => simp [get_tool_context, h, emptyBag]
    | some b => simp [get_tool_context, h, bagPop]

theorem make_reservation_spec (env : Env) (sid : Option String)
    (cn : String) (name city bid : Option String) (ps : Nat)
    (phone reqs : Option String) (ctx : ToolContexts) :
    (isConfirmed (make_reservation env sid cn name city bid ps phone reqs ctx).1 = false ∧
      (make_reservation env sid cn name city bid ps phone reqs ctx).2 = ctx) ∨
    (∃ restaurant tok,
      resolveRestaurant env.getById env.getByName name city bid = some (some restaurant) ∧
      get_tool_context sid "availability" ctx = some tok ∧
      (make_reservation env sid cn name city bid ps phone reqs ctx).1 =
        .okConfirmed (mkReservation env restaurant tok cn phone reqs) ∧
      (make_reservation env sid cn name city bid ps phone reqs ctx).2 =
        clear_tool_context sid "availability" ctx) := by
  unfold make_reservation
  repeat' split
  all_goals try exact Or.inl ⟨Eq.refl false, rfl⟩
  refine Or.inr ⟨_, _, ?_, ?_, rfl, rfl⟩ <;> assumption

theorem check_availability_spec (env : Env) (sid : Option String)
    (name city bid date time : Option String) (ps : Nat) (ctx : ToolContexts) :
    (isAvailable (check_availability env sid name city bid date time ps ctx).1 = false ∧
      (check_availability env sid name city bid date time ps ctx).2 = ctx) ∨
    (∃ tok,
      (check_availability env sid name city bid date time ps ctx).1 = .okAvailable tok ∧
      (check_availability env sid name city bid date time ps ctx).2 =
        set_tool_context sid "availability" tok ctx) := by
  simp only [check_availability, reservationCheck]
  repeat' split
  all_goals try exact Or.inl ⟨Eq.refl false, rfl⟩
  all_goals refine Or.inr ⟨_, rfl, rfl⟩

/-- C2: for every weekly hours entry and query time in minutes since
midnight, both the `is_open_now` evaluator and the hours check of
`check_availability_tool` report: closed all day when both endpoints are
0; for a midnight-crossing entry (close < open) inside iff
`t >= open or t < close`; otherwise inside iff `open <= t < close`
(closing time counts as closed); and an absent weekday entry is
reported as no hours listed. -/
theorem c2_hours_semantics :
    (∀ (h : String → Option (Nat × Nat × Nat × Nat)) (day : String) (nh nm : Nat),
      is_open_now none day nh nm = (false, "Hours not available") ∧
      (h day = none →
        is_open_now (some h) day nh nm = (false, "No hours listed for " ++ day)) ∧
      (∀ oh om ch cm, h day = some (oh, om, ch, cm) →
        (oh * 60 + om = 0 ∧ ch * 60 + cm = 0 →
          (is_open_now (some h) day nh nm).1 = false) ∧
        (¬(oh * 60 + om = 0 ∧ ch * 60 + cm = 0) → ch * 60 + cm < oh * 60 + om →
          ((is_open_now (some h) day nh nm).1 = true ↔
            (oh * 60 + om ≤ nh * 60 + nm ∨ nh * 60 + nm < ch * 60 + cm))) ∧
        (¬(oh * 60 + om = 0 ∧ ch * 60 + cm = 0) → ¬(ch * 60 + cm < oh * 60 + om) →
          ((is_open_now (some h) day nh nm).1 = true ↔
            (oh * 60 + om ≤ nh * 60 + nm ∧ nh * 60 + nm < ch * 60 + cm))))) ∧
    (∀ (env : Env) (sid : Option String) (name city bid : Option String)
      (dateArg timeArg : String) (ps : Nat) (ctx : ToolContexts)
      (restaurant : Restaurant) (pd : CalDate) (rh rm : Nat)
      (hrs : String → Option (Nat × Nat × Nat × Nat)),
      resolveRestaurant env.getById env.getByName name city bid = some (some restaurant) →
      restaurant.accepts_reservations = true →
      env.parseDate dateArg = some pd →
      env.parseTime pd timeArg = some (rh, rm) →
      restaurant.hours = some hrs →
      (hrs pd.weekday = none →
        (check_availability env sid name city bid (some dateArg) (some timeArg) ps ctx).1 =
          .errNoHoursForDay pd.weekday restaurant.name) ∧
      (∀ oh om ch cm, hrs pd.weekday = some (oh, om, ch, cm) →
        (oh * 60 + om = 0 ∧ ch * 60 + cm = 0 →
          (check_availability env sid name city bid (some dateArg) (some timeArg) ps ctx).1 =
            .errClosedOnDay restaurant.name pd.weekday) ∧
        (¬(oh * 60 + om = 0 ∧ ch * 60 + cm = 0) → ch * 60 + cm < oh * 60 + om →
          (isAvailable
              (check_availability env sid name city bid (some dateArg) (some timeArg) ps ctx).1 =
                true ↔
            (oh * 60 + om ≤ rh * 60 + rm ∨ rh * 60 + rm < ch * 60 + cm))) ∧
        (¬(oh * 60 + om = 0 ∧ ch * 60 + cm = 0) → ¬(ch * 60 + cm < oh * 60 + om) →
          (isAvailable
              (check_availability env sid name city bid (some dateArg) (some timeArg) ps ctx).1 =
                true ↔
            (oh * 60 + om ≤ rh * 60 + rm ∧ rh * 60 + rm < ch * 60 + cm))))) := by
  constructor
  · intro h day nh nm
    refine ⟨rfl, ?_, ?_⟩
    · intro hd
      simp [is_open_now, hd]
    · intro oh om ch cm hd
      refine ⟨?_, ?_, ?_⟩
      · intro hz
        simp [is_open_now, hd, hz]
      · intro hz hcross
        simp only [is_open_now, hd, if_neg hz, if_pos hcross]
        by_cases hge : oh * 60 + om ≤ nh * 60 + nm
        · simp [ge_iff_le, hge]
        · by_cases hlt : nh * 60 + nm < ch * 60 + cm
          · simp [ge_iff_le, hge, hlt]
          · simp [ge_iff_le, hge, hlt]
      · intro hz hcross
        simp only [is_open_now, hd, if_neg hz, if_neg hcross]
        by_cases hge : oh * 60 + om ≤ nh * 60 + nm
        · by_cases hlt : nh * 60 + nm < ch * 60 + cm
          · simp [hge, hlt]
          · simp [hge, hlt]
        · simp [hge]
  · intro env sid name city bid dateArg timeArg ps ctx restaurant pd rh rm hrs
      hres hacc hpd hpt hhrs
    constructor
    · intro hd
      simp [check_availability, reservationCheck, hres, hacc, hpd, hpt, hhrs, hd]
    · intro oh om ch cm hd
      refine ⟨?_, ?_, ?_⟩
      · intro hz
        simp [check_availability, reservationCheck, hres, hacc, hpd, hpt, hhrs, hd, hz]
      · intro hz hcross
        simp only [check_availability, reservationCheck, hres, hacc, hpd, hpt, hhrs, hd]
        by_cases hge : oh * 60 + om ≤ rh * 60 + rm
        · simp [ge_iff_le, hge, if_pos hcross, isAvailable]
          rw [if_neg (by omega)]
        · by_cases hlt : rh * 60 + rm < ch * 60 + cm
          · simp [ge_iff_le, hge, hlt, if_pos hcross, isAvailable]
            rw [if_neg (by omega)]
          · simp [ge_iff_le, hge, hlt, if_pos hcross, isAvailable]
            rw [if_neg (by omega)]
      · intro hz hcross
        simp only [check_availability, reservationCheck, hres, hacc, hpd, hpt, hhrs, hd]
        by_cases hge : oh * 60 + om ≤ rh * 60 + rm
        · by_cases hlt : rh * 60 + rm < ch * 60 + cm
          · simp [hge, hlt, if_neg hcross, isAvailable]
            rw [if_neg (by omega)]
          · simp [hge, hlt, if_neg hcross, isAvailable]
            rw [if_neg (by omega)]
        · simp [hge, if_neg hcross, isAvailable]
          rw [if_neg (by omega)]

/-- C2 witness: hours 22:00-2:00, query 23:30 is open and query 3:00 is
closed; hours 0:00-0:00 is closed regardless of the query time. -/
theorem c2_hours_semantics_witness :
    (is_open_now (some hrsLateNight) "Friday" 23 30).1 = true ∧
    (is_open_now (some hrsLateNight) "Friday" 3 0).1 = false ∧
    (is_open_now (some hrsAllZero) "Saturday" 12 0).1 = false := by
  refine ⟨?_, ?_, ?_⟩
  · exact (((c2_hours_semantics.1 hrsLateNight "Friday" 23 30).2.2 22 0 2 0
      (by decide)).2.1 (by decide) (by decide)).mpr (by decide)
  · have h := ((c2_hours_semantics.1 hrsLateNight "Friday" 3 0).2.2 22 0 2 0
      (by decide)).2.1 (by decide) (by decide)
    cases hb : (is_open_now (some hrsLateNight) "Friday" 3 0).1
    · rfl
    · exact absurd (h.mp hb) (by decide)
  · exact ((c2_hours_semantics.1 hrsAllZero "Saturday" 12 0).2.2 0 0 0 0
      (by decide)).1 (by decide)

theorem get_clear_other (sid sid2 : Option String) (key key2 : String)
    (hk : ¬ key2 = key) (ctx : ToolContexts) :
    get_tool_context sid2 key2 (clear_tool_context sid key ctx) =
      get_tool_context sid2 key2 ctx := by
  cases sid with
  | none => rfl
  | some s =>
    unfold clear_tool_context
    cases h : ctx (some s) with
    | none => rfl
    | some b =>
      cases sid2 with
      | none => rfl
      | some s2 =>
        by_cases hs : s2 = s
        · subst hs
          simp [get_tool_context, h, bagPop, hk]
        · simp [get_tool_context, hs]

/-- Direct evaluation of a successful committer run: when every
validation passes and a token is present and not in the past, the run
returns the confirmed record built from the token and consumes it. -/
theorem make_reservation_ok (env : Env) (sid : Option String) (cn : String)
    (name city bid : Option String) (ps : Nat) (phone reqs : Option String)
    (ctx : ToolContexts) (restaurant : Restaurant) (tok : AvailabilityToken)
    (h1 : (pyStrip cn).isEmpty = false)
    (h2 : generic_names.contains (pyStrip (pyLower cn)) = false)
    (h3 : ¬(pyStrip cn).length < 2)
    (h4 : resolveRestaurant env.getById env.getByName name city bid = some (some restaurant))
    (h5 : restaurant.accepts_reservations = true)
    (h6 : get_tool_context sid "availability" ctx = some tok)
    (h7 : ¬ tok.date.absDay < env.now.absDay) :
    make_reservation env sid cn name city bid ps phone reqs ctx =
      (.okConfirmed (mkReservation env restaurant tok cn phone reqs),
       clear_tool_context sid "availability" ctx) := by
  have h2m : pyStrip (pyLower cn) ∉ generic_names := by simpa using h2
  simp [make_reservation, h1, h2m, h3, h4, h5, h6, h7]

theorem isPySpace_pyLowerChar (c : Char) : isPySpace (pyLowerChar c) = isPySpace c := by
  unfold pyLowerChar
  split
  · rename_i h
    have hval : Nat.isValidChar (c.toNat + 32) := Or.inl (by omega)
    have hv : (Char.ofNat (c.toNat + 32)).toNat = c.toNat + 32 := by
      unfold Char.ofNat
      rw [dif_pos hval]
      rfl
    simp only [isPySpace, hv]
    have h65 : 65 ≤ c.toNat := h.1
    have h90 : c.toNat ≤ 90 := h.2
    apply Bool.eq_iff_iff.mpr
    simp
    omega
  · rfl

theorem stripList_map_pyLower (l : List Char) :
    stripList (l.map pyLowerChar) = (stripList l).map pyLowerChar := by
  have hfun : (isPySpace ∘ pyLowerChar) = isPySpace := funext isPySpace_pyLowerChar
  unfold stripList
  rw [List.dropWhile_map, hfun, ← List.map_reverse, List.dropWhile_map, hfun,
    ← List.map_reverse]

theorem pyStrip_pyLower_comm (s : String) :
    pyStrip (pyLower s) = pyLower (pyStrip s) := by
  show (⟨stripList ((s.data.map pyLowerChar))⟩ : String) = ⟨(stripList s.data).map pyLowerChar⟩
  rw [stripList_map_pyLower]

/-- C6 counterexample: with no session bound, `set` on the Session
Context Store is not a no-op — it mutates the store, creating a bucket
keyed by the unbound marker (the source performs no `None` check before
writing). -/
theorem c6_counterexample_set_unbound :
    set_tool_context none "availability" sampleTok emptyContexts ≠ emptyContexts := by
  intro h
  have h2 := congrFun h none
  simp [set_tool_context, emptyContexts] at h2

/-- C6 (amended): with no session bound, `get` returns absent and
`clear` is a no-op, and neither raises; `set` is not a no-op on the
store — it writes into a bucket keyed by the unbound marker — but the
written value is unobservable: every subsequent `get`, whether under a
bound session or with none bound, returns exactly what it returned
before the `set`. -/
theorem c6_unbound_session_safe (key : String) (v : AvailabilityToken)
    (ctx : ToolContexts) :
    get_tool_context none key ctx = none ∧
    clear_tool_context none key ctx = ctx ∧
    (∀ (sid : Option String) (k : String),
      get_tool_context sid k (set_tool_context none key v ctx) =
        get_tool_context sid k ctx) := by
  refine ⟨rfl, rfl, ?_⟩
  intro sid k
  cases sid with
  | none => rfl
  | some s => simp [get_tool_context, set_tool_context]

/-- C9: whenever the classification call fails (raises, times out, or
yields output that does not validate), `route_request` returns the
discovery ("restaurant") label instead of propagating the error; when
the call succeeds it returns the decision's agent, which is always one
of the two labels "restaurant" and "support". -/
theorem c9_router_failure_defaults_to_restaurant (e : String) (r : RouteDecision)
    (resp : Except String RouteDecision) :
    route_request (.error e) = .restaurant ∧
    route_request (.ok r) = r.agent ∧
    (route_request resp = .restaurant ∨ route_request resp = .support) := by
  refine ⟨rfl, rfl, ?_⟩
  cases resp with
  | error _ => exact Or.inl rfl
  | ok d =>
    cases h : d.agent with
    | restaurant => exact Or.inl (by simp [route_request, h])
    | support => exact Or.inr (by simp [route_request, h])

/-- C10: every failing run of the Reservation Committer leaves the
session store unchanged — in particular an existing availability token
survives the failure, so the commit can be retried — and only a
successful run consumes the token (by clearing the availability key). -/
theorem c10_commit_failure_preserves_store (env : Env) (sid : Option String)
    (cn : String) (name city bid : Option String) (ps : Nat)
    (phone reqs : Option String) (ctx : ToolContexts) :
    (isConfirmed (make_reservation env sid cn name city bid ps phone reqs ctx).1 = false →
      (make_reservation env sid cn name city bid ps phone reqs ctx).2 = ctx) ∧
    (isConfirmed (make_reservation env sid cn name city bid ps phone reqs ctx).1 = true →
      (make_reservation env sid cn name city bid ps phone reqs ctx).2 =
        clear_tool_context sid "availability" ctx) := by
  rcases make_reservation_spec env sid cn name city bid ps phone reqs ctx with
    ⟨hf, hc⟩ | ⟨rest, tok, _, _, hres, hctx⟩
  · refine ⟨fun _ => hc, fun ht => ?_⟩
    rw [hf] at ht
    cases ht
  · constructor
    · intro hf
      rw [hres] at hf
      cases hf
    · intro _
      exact hctx

/-- C10 witness: a commit with no token fails and leaves the (empty)
store unchanged. -/
theorem c10_commit_failure_preserves_store_witness :
    isConfirmed (make_reservation sampleEnv (some "s1") "Sarah Johnson"
        (some "Vetri Cucina") none none 2 none none emptyContexts).1 = false ∧
    (make_reservation sampleEnv (some "s1") "Sarah Johnson"
        (some "Vetri Cucina") none none 2 none none emptyContexts).2 = emptyContexts :=
  ⟨by decide,
   (c10_commit_failure_preserves_store sampleEnv (some "s1") "Sarah Johnson"
      (some "Vetri Cucina") none none 2 none none emptyContexts).1 (by decide)⟩

/-- C1 counterexample: with no token present for the session, a commit
invoked with the placeholder customer name "guest" (and a resolvable,
reservation-accepting restaurant) fails with the placeholder error, not
with the NoAvailabilityChecked error — the name validation runs before
the token check, so not every no-token invocation fails with
NoAvailabilityChecked. -/
theorem c1_counterexample_placeholder_before_token :
    get_tool_context (some "s1") "availability" emptyContexts = none ∧
    (make_reservation sampleEnv (some "s1") "guest" (some "Vetri Cucina") none none 2
        none none emptyContexts).1 = .errPlaceholder "guest" ∧
    (make_reservation sampleEnv (some "s1") "guest" (some "Vetri Cucina") none none 2
        none none emptyContexts).1 ≠ .errNoAvailability := by
  refine ⟨rfl, by decide, by decide⟩

/-- C1 (amended): for every session that holds no AvailabilityToken,
every invocation of the Reservation Committer fails and creates no
reservation record; whenever the invocation passes the earlier
validations (customer name valid, restaurant resolved and accepting
reservations) the failure is specifically the NoAvailabilityChecked
error; and the committer accepts no caller-supplied date/time at all —
any successful run's date, time and party size come from the session's
stored token. -/
theorem c1_no_token_commit_fails (env : Env) (sid : Option String)
    (cn : String) (name city bid : Option String) (ps : Nat)
    (phone reqs : Option String) (ctx : ToolContexts) :
    (get_tool_context sid "availability" ctx = none →
      isConfirmed (make_reservation env sid cn name city bid ps phone reqs ctx).1 = false ∧
      (make_reservation env sid cn name city bid ps phone reqs ctx).2 = ctx) ∧
    (get_tool_context sid "availability" ctx = none →
      (pyStrip cn).isEmpty = false →
      generic_names.contains (pyStrip (pyLower cn)) = false →
      ¬(pyStrip cn).length < 2 →
      ∀ restaurant,
        resolveRestaurant env.getById env.getByName name city bid = some (some restaurant) →
        restaurant.accepts_reservations = true →
        (make_reservation env sid cn name city bid ps phone reqs ctx).1 =
          .errNoAvailability) ∧
    (∀ r, (make_reservation env sid cn name city bid ps phone reqs ctx).1 =
        .okConfirmed r →
      ∃ tok, get_tool_context sid "availability" ctx = some tok ∧
        r.date = tok.date.ymd ∧ r.time = tok.time ∧ r.party_size = tok.party_size) := by
  refine ⟨?_, ?_, ?_⟩
  · intro hnone
    rcases make_reservation_spec env sid cn name city bid ps phone reqs ctx with
      ⟨hf, hc⟩ | ⟨rest, tok, _, hget, _, _⟩
    · exact ⟨hf, hc⟩
    · rw [hnone] at hget
      cases hget
  · intro hnone h1 h2 h3 restaurant hres hacc
    have h2m : pyStrip (pyLower cn) ∉ generic_names := by simpa using h2
    simp [make_reservation, h1, h2m, h3, hres, hacc, hnone]
  · intro r hr
    rcases make_reservation_spec env sid cn name city bid ps phone reqs ctx with
      ⟨hf, _⟩ | ⟨rest, tok, _, hget, hres, _⟩
    · rw [hr] at hf
      cases hf
    · rw [hres] at hr
      injection hr with hr
      exact ⟨tok, hget, by rw [← hr]; rfl, by rw [← hr]; rfl, by rw [← hr]; rfl⟩

/-- C1 witness: with an empty store and a valid name and restaurant,
the commit fails with exactly the NoAvailabilityChecked error. -/
theorem c1_no_token_commit_fails_witness :
    (make_reservation sampleEnv (some "s1") "Sarah Johnson" (some "Vetri Cucina")
        none none 2 none none emptyContexts).1 = .errNoAvailability :=
  (c1_no_token_commit_fails sampleEnv (some "s1") "Sarah Johnson" (some "Vetri Cucina")
      none none 2 none none emptyContexts).2.1 rfl (by decide) (by decide) (by decide)
      vetri rfl rfl

/-- C3: a successful Reservation Committer run deletes the session's
AvailabilityToken, so committing twice in a row with no intervening
availability check succeeds at most once: the first commit returns a
confirmed reservation and the second fails with NoAvailabilityChecked. -/
theorem c3_second_commit_fails (env env2 : Env) (s : String) (cn : String)
    (name city bid : Option String) (ps ps2 : Nat)
    (phone reqs phone2 reqs2 : Option String) (ctx : ToolContexts)
    (restaurant : Restaurant) (tok : AvailabilityToken)
    (h1 : (pyStrip cn).isEmpty = false)
    (h2 : generic_names.contains (pyStrip (pyLower cn)) = false)
    (h3 : ¬(pyStrip cn).length < 2)
    (hres : resolveRestaurant env.getById env.getByName name city bid =
      some (some restaurant))
    (hres2 : resolveRestaurant env2.getById env2.getByName name city bid =
      some (some restaurant))
    (hacc : restaurant.accepts_reservations = true)
    (htok : get_tool_context (some s) "availability" ctx = some tok)
    (hnotpast : ¬ tok.date.absDay < env.now.absDay) :
    isConfirmed (make_reservation env (some s) cn name city bid ps phone reqs ctx).1 =
      true ∧
    (make_reservation env2 (some s) cn name city bid ps2 phone2 reqs2
        (make_reservation env (some s) cn name city bid ps phone reqs ctx).2).1 =
      .errNoAvailability := by
  have hok := make_reservation_ok env (some s) cn name city bid ps phone reqs ctx
    restaurant tok h1 h2 h3 hres hacc htok hnotpast
  constructor
  · rw [hok]
    rfl
  · rw [hok]
    have hnone : get_tool_context (some s) "availability"
        (clear_tool_context (some s) "availability" ctx) = none :=
      get_clear_same (some s) "availability" ctx
    have h2m : pyStrip (pyLower cn) ∉ generic_names := by simpa using h2
    simp [make_reservation, h1, h2m, h3, hres2, hacc, hnone]

/-- C3 witness: with a fresh token in the store, the first commit
confirms and the immediately repeated commit fails with
NoAvailabilityChecked. -/
theorem c3_second_commit_fails_witness :
    isConfirmed (make_reservation sampleEnv (some "s1") "Sarah Johnson"
        (some "Vetri Cucina") none none 2 none none ctxWithTok).1 = true ∧
    (make_reservation sampleEnv (some "s1") "Sarah Johnson"
        (some "Vetri Cucina") none none 2 none none
        (make_reservation sampleEnv (some "s1") "Sarah Johnson"
          (some "Vetri Cucina") none none 2 none none ctxWithTok).2).1 =
      .errNoAvailability :=
  c3_second_commit_fails sampleEnv sampleEnv "s1" "Sarah Johnson"
    (some "Vetri Cucina") none none 2 2 none none none none ctxWithTok vetri sampleTok
    (by decide) (by decide) (by decide) rfl rfl rfl (by decide) (by decide)

/-- C4 (code bug): the committed reservation never flows back to the
caller.  `run_agent` reads the tool-context key "reservation", but
`make_reservation_tool` never writes that key (it only embeds the
record in its text output), so even a turn whose commit succeeds yields
`reservation_json = none`, and the `/chat` handler therefore never
appends anything to the session's reservation list.  Concretely: a
successful commit leaves the "reservation" key absent, the committer
never changes that key for any session, and storing `none` leaves the
reservation list unchanged. -/
theorem c4_reservation_json_always_none :
    isConfirmed (make_reservation sampleEnv (some "s1") "Sarah Johnson"
        (some "Vetri Cucina") none none 4 none none ctxWithTok).1 = true ∧
    run_agent_reservation_json (some "s1")
        (make_reservation sampleEnv (some "s1") "Sarah Johnson"
          (some "Vetri Cucina") none none 4 none none ctxWithTok).2 = none ∧
    (∀ (env : Env) (sid sid2 : Option String) (cn : String)
      (name city bid : Option String) (ps : Nat) (phone reqs : Option String)
      (ctx : ToolContexts),
      run_agent_reservation_json sid2
          (make_reservation env sid cn name city bid ps phone reqs ctx).2 =
        run_agent_reservation_json sid2 ctx) ∧
    (∀ rs : List Reservation, chat_store_reservation rs none = rs) := by
  refine ⟨by decide, by decide, ?_, fun rs => rfl⟩
  intro env sid sid2 cn name city bid ps phone reqs ctx
  rcases make_reservation_spec env sid cn name city bid ps phone reqs ctx with
    ⟨_, hc⟩ | ⟨rest, tok, _, _, _, hctx⟩
  · rw [hc]
  · rw [hctx]
    exact get_clear_other sid sid2 "availability" "reservation" (by decide) ctx

/-- C5: a successful Availability Checker run performs exactly one
Session Context Store write — the availability token, overwriting any
prior token for the session — and every non-successful run performs no
write; and after two sequential successful checks in the same session,
a commit uses the second (current) token's date, time and party size. -/
theorem c5_check_exactly_one_write (env : Env) (sid : Option String)
    (name city bid date time : Option String) (ps : Nat) (ctx : ToolContexts) :
    (isAvailable (check_availability env sid name city bid date time ps ctx).1 = false →
      (check_availability env sid name city bid date time ps ctx).2 = ctx) ∧
    (∀ tok,
      (check_availability env sid name city bid date time ps ctx).1 = .okAvailable tok →
      (check_availability env sid name city bid date time ps ctx).2 =
        set_tool_context sid "availability" tok ctx) ∧
    (∀ (env1 env2 env3 : Env) (s : String)
      (n1 c1 b1 d1 ta1 : Option String) (p1 : Nat)
      (n2 c2 b2 d2 ta2 : Option String) (p2 : Nat)
      (tok1 tok2 : AvailabilityToken) (cn : String)
      (nm cty bd : Option String) (p3 : Nat) (phone reqs : Option String)
      (restaurant : Restaurant) (ctx0 : ToolContexts),
      (check_availability env1 (some s) n1 c1 b1 d1 ta1 p1 ctx0).1 = .okAvailable tok1 →
      (check_availability env2 (some s) n2 c2 b2 d2 ta2 p2
          (check_availability env1 (some s) n1 c1 b1 d1 ta1 p1 ctx0).2).1 =
        .okAvailable tok2 →
      (pyStrip cn).isEmpty = false →
      generic_names.contains (pyStrip (pyLower cn)) = false →
      ¬(pyStrip cn).length < 2 →
      resolveRestaurant env3.getById env3.getByName nm cty bd = some (some restaurant) →
      restaurant.accepts_reservations = true →
      ¬ tok2.date.absDay < env3.now.absDay →
      ∃ r,
        (make_reservation env3 (some s) cn nm cty bd p3 phone reqs
            (check_availability env2 (some s) n2 c2 b2 d2 ta2 p2
              (check_availability env1 (some s) n1 c1 b1 d1 ta1 p1 ctx0).2).2).1 =
          .okConfirmed r ∧
        r.date = tok2.date.ymd ∧ r.time = tok2.time ∧ r.party_size = tok2.party_size) := by
  refine ⟨?_, ?_, ?_⟩
  · intro hf
    rcases check_availability_spec env sid name city bid date time ps ctx with
      ⟨_, hc⟩ | ⟨tok, hr, _⟩
    · exact hc
    · rw [hr] at hf
      cases hf
  · intro tok hr
    rcases check_availability_spec env sid name city bid date time ps ctx with
      ⟨hf, _⟩ | ⟨tok2, hr2, hctx⟩
    · rw [hr] at hf
      cases hf
    · rw [hr] at hr2
      injection hr2 with he
      rw [← he] at hctx
      exact hctx
  · intro env1 env2 env3 s n1 c1 b1 d1 ta1 p1 n2 c2 b2 d2 ta2 p2 tok1 tok2 cn
      nm cty bd p3 phone reqs restaurant ctx0 hc1 hc2 h1 h2 h3 hres hacc hpast
    rcases check_availability_spec env2 (some s) n2 c2 b2 d2 ta2 p2
        (check_availability env1 (some s) n1 c1 b1 d1 ta1 p1 ctx0).2 with
      ⟨hf, _⟩ | ⟨tk, hr, hctx⟩
    · rw [hc2] at hf
      cases hf
    · rw [hc2] at hr
      injection hr with he
      subst he
      have hget : get_tool_context (some s) "availability"
          (check_availability env2 (some s) n2 c2 b2 d2 ta2 p2
            (check_availability env1 (some s) n1 c1 b1 d1 ta1 p1 ctx0).2).2 =
          some tok2 := by
        rw [hctx]
        exact get_set_same s "availability" tok2 _
      exact ⟨mkReservation env3 restaurant tok2 cn phone reqs,
        by rw [make_reservation_ok env3 (some s) cn nm cty bd p3 phone reqs _
          restaurant tok2 h1 h2 h3 hres hacc hget hpast], rfl, rfl, rfl⟩

/-- C5 witness: a failing check (walk-in-only restaurant, reservation
path) writes nothing: the store stays empty. -/
theorem c5_check_exactly_one_write_witness :
    isAvailable (check_availability sampleEnv (some "s1") (some "Walk-In Diner")
        none none (some "tomorrow") (some "7pm") 2 emptyContexts).1 = false ∧
    (check_availability sampleEnv (some "s1") (some "Walk-In Diner")
        none none (some "tomorrow") (some "7pm") 2 emptyContexts).2 = emptyContexts :=
  ⟨by decide,
   (c5_check_exactly_one_write sampleEnv (some "s1") (some "Walk-In Diner")
      none none (some "tomorrow") (some "7pm") 2 emptyContexts).1 (by decide)⟩

/-- C7: customer-name validation rejects every name whose stripped form
is empty (empty or whitespace-only input), every name whose trimmed
lower-cased form is in the placeholder set, and every name whose
trimmed length is below 2 — each with its distinct re-promptable error
and no store change — and in particular rejects "", "   ", "Guest",
"guest" and "X" while accepting "Sarah Johnson" (which, with a valid
restaurant and token, commits successfully). -/
theorem c7_customer_name_validation (env : Env) (sid : Option String)
    (cn : String) (name city bid : Option String) (ps : Nat)
    (phone reqs : Option String) (ctx : ToolContexts) :
    ((pyStrip cn).isEmpty = true →
      make_reservation env sid cn name city bid ps phone reqs ctx = (.errEmptyName, ctx)) ∧
    ((pyStrip cn).isEmpty = false →
      generic_names.contains (pyLower (pyStrip cn)) = true →
      make_reservation env sid cn name city bid ps phone reqs ctx =
        (.errPlaceholder cn, ctx)) ∧
    ((pyStrip cn).isEmpty = false →
      generic_names.contains (pyLower (pyStrip cn)) = false →
      (pyStrip cn).length < 2 →
      make_reservation env sid cn name city bid ps phone reqs ctx =
        (.errTooShort cn, ctx)) ∧
    make_reservation env sid "" name city bid ps phone reqs ctx = (.errEmptyName, ctx) ∧
    make_reservation env sid "   " name city bid ps phone reqs ctx = (.errEmptyName, ctx) ∧
    make_reservation env sid "Guest" name city bid ps phone reqs ctx =
      (.errPlaceholder "Guest", ctx) ∧
    make_reservation env sid "guest" name city bid ps phone reqs ctx =
      (.errPlaceholder "guest", ctx) ∧
    make_reservation env sid "X" name city bid ps phone reqs ctx =
      (.errTooShort "X", ctx) ∧
    isConfirmed (make_reservation sampleEnv (some "s1") "Sarah Johnson"
        (some "Vetri Cucina") none none 2 none none ctxWithTok).1 = true := by
  have hA : ∀ c0 : String, (pyStrip c0).isEmpty = true →
      make_reservation env sid c0 name city bid ps phone reqs ctx = (.errEmptyName, ctx) := by
    intro c0 h
    simp [make_reservation, h]
  have hB : ∀ c0 : String, (pyStrip c0).isEmpty = false →
      generic_names.contains (pyLower (pyStrip c0)) = true →
      make_reservation env sid c0 name city bid ps phone reqs ctx =
        (.errPlaceholder c0, ctx) := by
    intro c0 h hg
    rw [← pyStrip_pyLower_comm] at hg
    have hgm : pyStrip (pyLower c0) ∈ generic_names := by simpa using hg
    simp [make_reservation, h, hgm]
  have hC : ∀ c0 : String, (pyStrip c0).isEmpty = false →
      generic_names.contains (pyLower (pyStrip c0)) = false →
      (pyStrip c0).length < 2 →
      make_reservation env sid c0 name city bid ps phone reqs ctx =
        (.errTooShort c0, ctx) := by
    intro c0 h hg hl
    rw [← pyStrip_pyLower_comm] at hg
    have hgm : pyStrip (pyLower c0) ∉ generic_names := by simpa using hg
    simp [make_reservation, h, hgm, hl]
  exact ⟨hA cn, hB cn, hC cn, hA "" (by decide), hA "   " (by decide),
    hB "Guest" (by decide) (by decide), hB "guest" (by decide) (by decide),
    hC "X" (by decide) (by decide) (by decide), by decide⟩

/-- C7 witness: the placeholder clause applied at "Guest". -/
theorem c7_customer_name_validation_witness :
    make_reservation sampleEnv (some "s1") "Guest" (some "Vetri Cucina") none none 2
      none none emptyContexts = (.errPlaceholder "Guest", emptyContexts) :=
  (c7_customer_name_validation sampleEnv (some "s1") "Guest" (some "Vetri Cucina")
      none none 2 none none emptyContexts).2.1 (by decide) (by decide)

theorem applyOp_other_session (sid : Option String) (B : String)
    (hne : ¬ some B = sid) (op : CtxOp) (ctx : ToolContexts) :
    (applyOp sid op ctx) (some B) = ctx (some B) := by
  cases op with
  | setOp k v => simp [applyOp, set_tool_context, hne]
  | clearOp k =>
    simp only [applyOp, clear_tool_context]
    cases sid with
    | none => rfl
    | some s =>
      cases h : ctx (some s) with
      | none => rfl
      | some b => simp [hne]

theorem applyOp_same_session (B : String) (op : CtxOp) (ctx1 ctx2 : ToolContexts)
    (hb : ctx1 (some B) = ctx2 (some B)) :
    (applyOp (some B) op ctx1) (some B) = (applyOp (some B) op ctx2) (some B) := by
  cases op with
  | setOp k v => simp [applyOp, set_tool_context, hb]
  | clearOp k =>
    simp only [applyOp, clear_tool_context]
    rw [hb]
    cases h : ctx2 (some B) with
    | none => exact hb
    | some b => simp

theorem applyOps_own_bucket (B : String) (ops : List (Option String × CtxOp)) :
    ∀ (ctx1 ctx2 : ToolContexts), ctx1 (some B) = ctx2 (some B) →
      (applyOps ops ctx1) (some B) =
        (applyOps (ops.filter fun p => decide (p.1 = some B)) ctx2) (some B) := by
  induction ops with
  | nil => exact fun ctx1 ctx2 hb => hb
  | cons hd rest ih =>
    intro ctx1 ctx2 hb
    obtain ⟨sid, op⟩ := hd
    by_cases hs : sid = some B
    · subst hs
      have h2 : (((some B : Option String), op) :: rest).filter
            (fun p => decide (p.1 = some B)) =
          ((some B : Option String), op) ::
            rest.filter (fun p => decide (p.1 = some B)) := by
        simp [List.filter_cons]
      rw [h2]
      have h1 : applyOps (((some B : Option String), op) :: rest) ctx1 =
          applyOps rest (applyOp (some B) op ctx1) := rfl
      have h3 : applyOps (((some B : Option String), op) ::
            rest.filter (fun p => decide (p.1 = some B))) ctx2 =
          applyOps (rest.filter (fun p => decide (p.1 = some B)))
            (applyOp (some B) op ctx2) := rfl
      rw [h1, h3]
      exact ih _ _ (applyOp_same_session B op ctx1 ctx2 hb)
    · have h2 : (((sid : Option String), op) :: rest).filter
            (fun p => decide (p.1 = some B)) =
          rest.filter (fun p => decide (p.1 = some B)) := by
        simp [List.filter_cons, hs]
      rw [h2]
      have h1 : applyOps (((sid : Option String), op) :: rest) ctx1 =
          applyOps rest (applyOp sid op ctx1) := rfl
      rw [h1]
      refine ih _ _ ?_
      rw [applyOp_other_session sid B (fun h => hs h.symm) op ctx1]
      exact hb

/-- C8: Session Context Store operations performed while session A is
bound never read or modify session B's data: any sequence of operations
all tagged A leaves every `get` under B unchanged; in an arbitrary
interleaving, B's view equals the view produced by B's own operations
alone; and in particular a token written under A is never visible to a
`get` under B. -/
theorem c8_cross_session_isolation (A B : String) (hne : A ≠ B) :
    (∀ (ops : List (Option String × CtxOp)) (key : String) (ctx : ToolContexts),
      (∀ p ∈ ops, p.1 = some A) →
      get_tool_context (some B) key (applyOps ops ctx) =
        get_tool_context (some B) key ctx) ∧
    (∀ (ops : List (Option String × CtxOp)) (key : String) (ctx : ToolContexts),
      get_tool_context (some B) key (applyOps ops ctx) =
        get_tool_context (some B) key
          (applyOps (ops.filter fun p => decide (p.1 = some B)) ctx)) ∧
    (∀ (v : AvailabilityToken) (key : String) (ctx : ToolContexts),
      get_tool_context (some B) key (set_tool_context (some A) "availability" v ctx) =
        get_tool_context (some B) key ctx) := by
  have hbucket : ∀ (ops : List (Option String × CtxOp)) (ctx : ToolContexts),
      (applyOps ops ctx) (some B) =
        (applyOps (ops.filter fun p => decide (p.1 = some B)) ctx) (some B) :=
    fun ops ctx => applyOps_own_bucket B ops ctx ctx rfl
  refine ⟨?_, ?_, ?_⟩
  · intro ops key ctx hall
    have hnil : ops.filter (fun p => decide (p.1 = some B)) = [] := by
      rw [List.filter_eq_nil_iff]
      intro p hp
      simp [hall p hp, hne]
    have := hbucket ops ctx
    rw [hnil] at this
    simp only [get_tool_context]
    rw [this]
    rfl
  · intro ops key ctx
    simp only [get_tool_context]
    rw [hbucket ops ctx]
  · intro v key ctx
    have h := applyOp_other_session (some A) B
      (by simp [Ne.symm hne]) (.setOp "availability" v) ctx
    simp only [get_tool_context]
    rw [show set_tool_context (some A) "availability" v ctx =
      applyOp (some A) (.setOp "availability" v) ctx from rfl, h]

/-- C8 witness: a token set under session "a" is invisible to session
"b": a get under "b" still reports the key absent. -/
theorem c8_cross_session_isolation_witness :
    get_tool_context (some "b") "availability"
        (applyOps [(some "a", .setOp "availability" sampleTok)] emptyContexts) = none :=
  Eq.trans
    ((c8_cross_session_isolation "a" "b" (by decide)).1
      [(some "a", .setOp "availability" sampleTok)] "availability" emptyContexts
      (by simp))
    rfl
